import Mathlib

/-!
Shallow embedding of the transaction webhook service
(`app/models.py`, `app/schemas.py`, `app/tasks.py`, `app/main.py`).

Timestamps are modelled as natural-number ticks; the float `amount`
column is modelled as a rational number.  The SQLAlchemy store is a list
of rows; `db.query(Transaction).filter(...).first()` is `List.find?`
and a committed UPDATE of the matching row is a map over the list.
-/

namespace Backend

/-- Transaction status enumeration (`app/models.py`, `TransactionStatus`). -/
inductive TransactionStatus where
  | PROCESSING
  | PROCESSED
  | FAILED
deriving DecidableEq, Repr

/-- One row of the `transactions` table (`app/models.py`, `Transaction`). -/
structure Transaction where
  transaction_id : String
  source_account : String
  destination_account : String
  amount : Rat
  currency : String
  status : TransactionStatus
  created_at : Nat
  processed_at : Option Nat
deriving DecidableEq, Repr

/-- The rows of the `transactions` table. -/
abbrev Store := List Transaction

/-- `db.query(Transaction).filter(Transaction.transaction_id == id).first()`. -/
def findTxn (db : Store) (id : String) : Option Transaction :=
  db.find? (fun t => t.transaction_id == id)

/-- Number of stored rows carrying a given id. -/
def countTxn (db : Store) (id : String) : Nat :=
  (db.filter (fun t => t.transaction_id == id)).length

/-- The ORM mutation `transaction.status = st; transaction.processed_at = now`
applied to the row whose key matches, leaving other rows alone. -/
def applyUpdate (id : String) (st : TransactionStatus) (now : Nat)
    (t : Transaction) : Transaction :=
  if t.transaction_id == id then { t with status := st, processed_at := some now }
  else t

/-- The committed UPDATE: every row matching the key gets the new status and
`processed_at` (with the key unique this is the single matched row). -/
def updateStatus (db : Store) (id : String) (st : TransactionStatus) (now : Nat) :
    Store :=
  db.map (applyUpdate id st now)

/-- `time.sleep(25)` in `app/tasks.py` and `app/main.py`. -/
def TASK_DELAY : Nat := 25

/-- `countdown=60` in `self.retry(exc=e, countdown=60)` (`app/tasks.py`). -/
def RETRY_COUNTDOWN : Nat := 60

/-- `max_retries=3` on the celery task decorator (`app/tasks.py`). -/
def MAX_RETRIES : Nat := 3

/-- Which of the task body's fallible actions fail in a given run:
`mainFails` is an exception during the delay or the PROCESSED update,
`fallbackFails` is an exception during the best-effort FAILED write. -/
structure FailureScenario where
  mainFails : Bool
  fallbackFails : Bool
deriving DecidableEq, Repr

/-- How one invocation of the celery task ends: normal completion, the
record-missing error log, or the re-raised `self.retry` signal. -/
inductive TaskOutcome where
  | ok
  | notFoundError
  | retrySignal (countdown : Nat)
deriving DecidableEq, Repr

/-- `process_transaction` (`app/tasks.py`): sleep `TASK_DELAY`, look the row
up; if present set status PROCESSED and `processed_at` to the completion
time and commit; if absent log an error.  On any exception, best-effort
write FAILED with `processed_at` set (if even that write fails, only log),
then raise `self.retry` with a fixed countdown. -/
def process_transaction (fs : FailureScenario) (db : Store) (startTime : Nat)
    (transaction_id : String) : Store × TaskOutcome :=
  let now := startTime + TASK_DELAY
  if fs.mainFails then
    let db2 :=
      if fs.fallbackFails then db
      else
        match findTxn db transaction_id with
        | some _ => updateStatus db transaction_id .FAILED now
        | none => db
    (db2, .retrySignal RETRY_COUNTDOWN)
  else
    match findTxn db transaction_id with
    | some _ => (updateStatus db transaction_id .PROCESSED now, .ok)
    | none => (db, .notFoundError)

/-- `_process_transaction_in_thread` (`app/main.py`): the thread fallback.
Sleep `TASK_DELAY`, then set the row to PROCESSED; on any exception it only
rolls back and logs (no FAILED write, no retry). -/
def processTransactionInThread (fails : Bool) (db : Store) (startTime : Nat)
    (transaction_id : String) : Store :=
  let now := startTime + TASK_DELAY
  if fails then db
  else
    match findTxn db transaction_id with
    | some _ => updateStatus db transaction_id .PROCESSED now
    | none => db

/-- The scenario in which nothing fails. -/
def noFail : FailureScenario := ⟨false, false⟩

/-- Incoming webhook payload (`app/schemas.py`, `WebhookRequest`).  All five
fields are required; `amount` carries `gt=0` and `currency` carries
`min_length=3, max_length=3`; the account strings carry no further
constraint. -/
structure WebhookRequest where
  transaction_id : String
  source_account : String
  destination_account : String
  amount : Rat
  currency : String
deriving DecidableEq, Repr

/-- The pydantic field validation of `WebhookRequest` (`app/schemas.py`):
`amount` must be strictly positive and `currency` exactly three characters;
the account identifiers are merely required, with no length constraint. -/
def validWebhookRequest (w : WebhookRequest) : Bool :=
  decide (0 < w.amount) && (w.currency.length == 3)

/-- The row built by `receive_webhook` (`app/main.py`): status PROCESSING,
`created_at` server-assigned at commit, `processed_at` NULL. -/
def mkTransaction (w : WebhookRequest) (now : Nat) : Transaction :=
  { transaction_id := w.transaction_id
    source_account := w.source_account
    destination_account := w.destination_account
    amount := w.amount
    currency := w.currency
    status := .PROCESSING
    created_at := now
    processed_at := none }

/-- State touched by the ingestion endpoint: the table plus the multiset of
deferred jobs handed to the dispatch layer (one id per `queue_task` spawn). -/
structure IngestState where
  db : Store
  scheduledJobs : List String
deriving DecidableEq, Repr

/-- What the HTTP layer hands back for a webhook or query request. -/
inductive ApiResponse where
  | accepted (message : String) (transaction_id : String)
  | clientError (code : Nat)
  | serverError (code : Nat) (detail : String)
deriving DecidableEq, Repr

/-- HTTP status code of a response: the endpoint declares 202 for the normal
return path, errors carry their own code. -/
def statusCode : ApiResponse → Nat
  | .accepted _ _ => 202
  | .clientError c => c
  | .serverError c _ => c

/-- `receive_webhook` (`app/main.py`), after validation.  Build the row,
`db.add` + `db.commit`; a duplicate key surfaces as `IntegrityError`,
answered with the duplicate acknowledgment and no scheduling; any other
commit failure (store unavailable) rolls back and raises HTTP 500; on
success exactly one deferred job for the id is handed to `queue_task`. -/
def receive_webhook (storeAvailable : Bool) (now : Nat) (w : WebhookRequest)
    (s : IngestState) : IngestState × ApiResponse :=
  if storeAvailable then
    match findTxn s.db w.transaction_id with
    | some _ =>
        (s, .accepted ("Webhook received (duplicate)") w.transaction_id)
    | none =>
        ({ db := s.db ++ [mkTransaction w now]
           scheduledJobs := s.scheduledJobs ++ [w.transaction_id] },
         .accepted ("Webhook received") w.transaction_id)
  else
    (s, .serverError 500 ("Failed to process webhook"))

/-- The full POST endpoint: pydantic validation in front of
`receive_webhook`; an invalid payload is rejected with a 422 client error
before the handler body runs. -/
def postWebhook (storeAvailable : Bool) (now : Nat) (w : WebhookRequest)
    (s : IngestState) : IngestState × ApiResponse :=
  if validWebhookRequest w then receive_webhook storeAvailable now w s
  else (s, .clientError 422)

/-- Response row of the GET endpoint (`app/schemas.py`,
`TransactionResponse`): all eight columns of the record. -/
structure TransactionResponse where
  transaction_id : String
  source_account : String
  destination_account : String
  amount : Rat
  currency : String
  status : TransactionStatus
  created_at : Nat
  processed_at : Option Nat
deriving DecidableEq, Repr

/-- `from_attributes` conversion of a row into the response schema. -/
def toResponse (t : Transaction) : TransactionResponse :=
  { transaction_id := t.transaction_id
    source_account := t.source_account
    destination_account := t.destination_account
    amount := t.amount
    currency := t.currency
    status := t.status
    created_at := t.created_at
    processed_at := t.processed_at }

/-- Result of the GET endpoint, whose `response_model` is
`List[TransactionResponse]`. -/
inductive GetResult where
  | found (records : List TransactionResponse)
  | httpError (code : Nat) (detail : String)
deriving DecidableEq, Repr

/-- `get_transaction` (`app/main.py`): look the row up; absent raises
HTTP 404, present returns the one-element list `[transaction]`. -/
def get_transaction (db : Store) (transaction_id : String) : GetResult :=
  match findTxn db transaction_id with
  | some t => .found [toResponse t]
  | none => .httpError 404 (("Transaction ") ++ transaction_id ++ (" not found"))

/-- Every operation of the system that writes the table. -/
inductive SysOp where
  | ingest (storeAvailable : Bool) (now : Nat) (w : WebhookRequest)
  | deferred (fs : FailureScenario) (startTime : Nat) (id : String)
  | deferredThread (fails : Bool) (startTime : Nat) (id : String)

/-- Effect of one operation on the ingestion state. -/
def applyOp : SysOp → IngestState → IngestState
  | .ingest avail now w, s => (postWebhook avail now w s).1
  | .deferred fs t id, s => { s with db := (process_transaction fs s.db t id).1 }
  | .deferredThread f t id, s =>
      { s with db := processTransactionInThread f s.db t id }

/-- A trace of operations applied in order. -/
def runOps (ops : List SysOp) (s : IngestState) : IngestState :=
  ops.foldl (fun st op => applyOp op st) s

/-- Status of the stored record for an id, if any. -/
def statusOf (db : Store) (id : String) : Option TransactionStatus :=
  (findTxn db id).map Transaction.status

/-- The `processed_at` iff-terminal invariant of one row (§3 of the data
model): `processed_at` is non-null exactly when the status is terminal. -/
def rowInvariant (t : Transaction) : Bool :=
  t.processed_at.isSome == (t.status == .PROCESSED || t.status == .FAILED)

/-- The invariant over the whole table. -/
def storeInvariant (db : Store) : Bool :=
  db.all rowInvariant

/-- Result of driving one job through celery's retry machinery: the final
table, how many times the task body ran, and whether the job was abandoned
after exhausting its retries. -/
structure LoopResult where
  db : Store
  runs : Nat
  abandoned : Bool
deriving DecidableEq, Repr

/-- Celery's dispatch of one job (`max_retries` budget): run the task; on a
`self.retry` signal re-run it after the countdown while retries remain, and
abandon the job once they are exhausted.  `scen k` is the failure scenario
of the k-th run. -/
def dispatchLoop (scen : Nat → FailureScenario) (id : String)
    (retriesLeft k t : Nat) (db : Store) : LoopResult :=
  match process_transaction (scen k) db t id, retriesLeft with
  | (db2, .retrySignal _), 0 => ⟨db2, k + 1, true⟩
  | (db2, .retrySignal c), r + 1 => dispatchLoop scen id r (k + 1) (t + c) db2
  | (db2, .ok), _ => ⟨db2, k + 1, false⟩
  | (db2, .notFoundError), _ => ⟨db2, k + 1, false⟩

/-- The ORM mutation does not touch the primary key. -/
theorem applyUpdate_transaction_id (id : String) (st : TransactionStatus)
    (now : Nat) (t : Transaction) :
    (applyUpdate id st now t).transaction_id = t.transaction_id := by
  unfold applyUpdate; split <;> rfl

/-- Looking a row up after an UPDATE finds the updated image of the row the
lookup found before. -/
theorem findTxn_updateStatus (db : Store) (id id' : String)
    (st : TransactionStatus) (now : Nat) :
    findTxn (updateStatus db id st now) id'
      = (findTxn db id').map (applyUpdate id st now) := by
  induction db with
  | nil => rfl
  | cons t ts ih =>
    simp only [updateStatus, List.map_cons, findTxn, List.find?_cons,
      applyUpdate_transaction_id]
    cases h : (t.transaction_id == id') with
    | true => rfl
    | false => exact ih

/-- A row found in a table is still found after appending rows. -/
theorem findTxn_append_left (db db' : Store) (id : String) (r : Transaction)
    (h : findTxn db id = some r) : findTxn (db ++ db') id = some r := by
  simp only [findTxn] at *
  rw [List.find?_append, h]; rfl

/-- Two successive UPDATEs of the same key collapse to the second. -/
theorem updateStatus_updateStatus (db : Store) (id : String)
    (st st' : TransactionStatus) (now now' : Nat) :
    updateStatus (updateStatus db id st now) id st' now'
      = updateStatus db id st' now' := by
  simp only [updateStatus, List.map_map]
  apply List.map_congr_left
  intro t _
  simp only [Function.comp_apply, applyUpdate]
  cases h : (t.transaction_id == id) with
  | true => simp [h]
  | false => simp [h]

/-- The table a task run leaves behind is the old table, a PROCESSED update
of the id, or a FAILED update of the id; nothing else. -/
theorem process_transaction_fst (fs : FailureScenario) (db : Store) (t : Nat)
    (id : String) :
    (process_transaction fs db t id).1 = db
      ∨ (process_transaction fs db t id).1
        = updateStatus db id .PROCESSED (t + TASK_DELAY)
      ∨ (process_transaction fs db t id).1
        = updateStatus db id .FAILED (t + TASK_DELAY) := by
  unfold process_transaction
  cases fs.mainFails <;> cases fs.fallbackFails <;>
    cases hf : findTxn db id <;> simp [hf]

/-- A run whose body fails ends in the retry signal with the fixed
countdown, leaving either the old table or a FAILED update of the id. -/
theorem process_transaction_mainFails (fs : FailureScenario) (db : Store)
    (t : Nat) (id : String) (h : fs.mainFails = true) :
    (process_transaction fs db t id).2 = .retrySignal RETRY_COUNTDOWN
      ∧ ((process_transaction fs db t id).1 = db
          ∨ (process_transaction fs db t id).1
            = updateStatus db id .FAILED (t + TASK_DELAY)) := by
  unfold process_transaction
  rw [h]
  cases fs.fallbackFails <;> cases hf : findTxn db id <;> simp [hf]

/-- The thread fallback leaves the old table or a PROCESSED update. -/
theorem processTransactionInThread_cases (f : Bool) (db : Store) (t : Nat)
    (id : String) :
    processTransactionInThread f db t id = db
      ∨ processTransactionInThread f db t id
        = updateStatus db id .PROCESSED (t + TASK_DELAY) := by
  unfold processTransactionInThread
  cases f <;> cases hf : findTxn db id <;> simp [hf]

/-- An UPDATE writing a terminal status keeps every existing row present and
off `PROCESSING`, whichever key it targets. -/
theorem statusOf_updateStatus_ne (db : Store) (id id' : String)
    (st : TransactionStatus) (now : Nat) (hst : st ≠ .PROCESSING)
    (h1 : (statusOf db id).isSome = true)
    (h2 : statusOf db id ≠ some .PROCESSING) :
    (statusOf (updateStatus db id' st now) id).isSome = true
      ∧ statusOf (updateStatus db id' st now) id ≠ some .PROCESSING := by
  obtain ⟨r, hr⟩ : ∃ r, findTxn db id = some r := by
    cases hfr : findTxn db id with
    | some r => exact ⟨r, rfl⟩
    | none => rw [statusOf, hfr] at h1; simp at h1
  have hbefore : statusOf db id = some r.status := by
    simp [statusOf, hr]
  rw [hbefore] at h2
  have hrstat : r.status ≠ .PROCESSING := fun hc => h2 (by rw [hc])
  have hs : findTxn (updateStatus db id' st now) id = some (applyUpdate id' st now r) := by
    rw [findTxn_updateStatus, hr]; rfl
  refine ⟨by simp [statusOf, hs], ?_⟩
  simp only [statusOf, hs, Option.map_some, ne_eq, Option.some.injEq]
  unfold applyUpdate
  split
  · simpa using hst
  · simpa using hrstat

/-- The POST endpoint either leaves the table alone or appends the one new
row it has just built. -/
theorem postWebhook_db_cases (avail : Bool) (now : Nat) (w : WebhookRequest)
    (s : IngestState) :
    ((postWebhook avail now w s).1).db = s.db
      ∨ ((postWebhook avail now w s).1).db = s.db ++ [mkTransaction w now] := by
  unfold postWebhook receive_webhook
  cases validWebhookRequest w <;> cases avail <;>
    cases hf : findTxn s.db w.transaction_id <;> simp [hf]

/-- The ingestion endpoint never rewrites an existing row: a row found
before the request is found unchanged afterwards. -/
theorem findTxn_postWebhook (avail : Bool) (now : Nat) (w : WebhookRequest)
    (s : IngestState) (id : String) (r : Transaction)
    (hr : findTxn s.db id = some r) :
    findTxn ((postWebhook avail now w s).1).db id = some r := by
  rcases postWebhook_db_cases avail now w s with h | h
  · rw [h]; exact hr
  · rw [h]; exact findTxn_append_left _ _ _ _ hr

/-- One system operation keeps every existing row present and, if it was
off `PROCESSING`, keeps it off `PROCESSING`. -/
theorem statusOf_step (op : SysOp) (s : IngestState) (id : String)
    (h1 : (statusOf s.db id).isSome = true)
    (h2 : statusOf s.db id ≠ some .PROCESSING) :
    (statusOf (applyOp op s).db id).isSome = true
      ∧ statusOf (applyOp op s).db id ≠ some .PROCESSING := by
  cases op with
  | ingest avail now w =>
      obtain ⟨r, hr⟩ : ∃ r, findTxn s.db id = some r := by
        cases hfr : findTxn s.db id with
        | some r => exact ⟨r, rfl⟩
        | none => rw [statusOf, hfr] at h1; simp at h1
      have hafter := findTxn_postWebhook avail now w s id r hr
      have hsame : statusOf (applyOp (SysOp.ingest avail now w) s).db id
          = statusOf s.db id := by
        simp only [applyOp, statusOf, hafter, hr]
      rw [hsame]
      exact ⟨h1, h2⟩
  | deferred fs t id' =>
      rcases process_transaction_fst fs s.db t id' with h | h | h
      · simp only [applyOp, h]; exact ⟨h1, h2⟩
      · simp only [applyOp, h]
        exact statusOf_updateStatus_ne s.db id id' .PROCESSED (t + TASK_DELAY)
          (by simp) h1 h2
      · simp only [applyOp, h]
        exact statusOf_updateStatus_ne s.db id id' .FAILED (t + TASK_DELAY)
          (by simp) h1 h2
  | deferredThread f t id' =>
      rcases processTransactionInThread_cases f s.db t id' with h | h
      · simp only [applyOp, h]; exact ⟨h1, h2⟩
      · simp only [applyOp, h]
        exact statusOf_updateStatus_ne s.db id id' .PROCESSED (t + TASK_DELAY)
          (by simp) h1 h2

/-- Freshly built rows satisfy the `processed_at` invariant. -/
theorem rowInvariant_mkTransaction (w : WebhookRequest) (now : Nat) :
    rowInvariant (mkTransaction w now) = true := rfl

/-- An UPDATE writing a terminal status together with `processed_at`
preserves the table invariant. -/
theorem storeInvariant_updateStatus (db : Store) (id : String)
    (st : TransactionStatus) (now : Nat) (hst : st ≠ .PROCESSING)
    (h : storeInvariant db = true) :
    storeInvariant (updateStatus db id st now) = true := by
  simp only [storeInvariant, updateStatus, List.all_eq_true] at *
  intro x hx
  obtain ⟨t, ht, rfl⟩ := List.mem_map.mp hx
  unfold applyUpdate
  split
  · unfold rowInvariant
    cases st with
    | PROCESSING => exact absurd rfl hst
    | PROCESSED => rfl
    | FAILED => rfl
  · exact h t ht

/-- All four runs of an always-failing job: the dispatch loop abandons after
the retry budget, having run the body once plus one per retry, and leaves
the table either untouched or carrying a FAILED update of the id. -/
theorem dispatchLoop_allFail (scen : Nat → FailureScenario) (id : String)
    (hscen : ∀ k, (scen k).mainFails = true) :
    ∀ (rl k t : Nat) (db : Store),
      (dispatchLoop scen id rl k t db).abandoned = true
        ∧ (dispatchLoop scen id rl k t db).runs = k + rl + 1
        ∧ ((dispatchLoop scen id rl k t db).db = db
            ∨ ∃ tt, (dispatchLoop scen id rl k t db).db
                = updateStatus db id .FAILED tt) := by
  intro rl
  induction rl with
  | zero =>
      intro k t db
      obtain ⟨hsnd, hfst⟩ :=
        process_transaction_mainFails (scen k) db t id (hscen k)
      have hpair : process_transaction (scen k) db t id
          = ((process_transaction (scen k) db t id).1,
             .retrySignal RETRY_COUNTDOWN) := by
        rw [← hsnd]
      have hloop : dispatchLoop scen id 0 k t db
          = ⟨(process_transaction (scen k) db t id).1, k + 1, true⟩ := by
        rw [dispatchLoop.eq_def, hpair]
      rw [hloop]
      refine ⟨rfl, rfl, ?_⟩
      rcases hfst with h | h
      · exact Or.inl h
      · exact Or.inr ⟨t + TASK_DELAY, h⟩
  | succ r ih =>
      intro k t db
      obtain ⟨hsnd, hfst⟩ :=
        process_transaction_mainFails (scen k) db t id (hscen k)
      have hpair : process_transaction (scen k) db t id
          = ((process_transaction (scen k) db t id).1,
             .retrySignal RETRY_COUNTDOWN) := by
        rw [← hsnd]
      have hloop : dispatchLoop scen id (r + 1) k t db
          = dispatchLoop scen id r (k + 1) (t + RETRY_COUNTDOWN)
              (process_transaction (scen k) db t id).1 := by
        rw [dispatchLoop.eq_def, hpair]
      rw [hloop]
      obtain ⟨ha, hruns, hdb⟩ :=
        ih (k + 1) (t + RETRY_COUNTDOWN) (process_transaction (scen k) db t id).1
      refine ⟨ha, by omega, ?_⟩
      rcases hdb with h | ⟨tt, h⟩
      · rw [h]
        rcases hfst with h' | h'
        · exact Or.inl h'
        · exact Or.inr ⟨t + TASK_DELAY, h'⟩
      · rw [h]
        rcases hfst with h' | h'
        · rw [h']
          exact Or.inr ⟨tt, rfl⟩
        · rw [h', updateStatus_updateStatus]
          exact Or.inr ⟨tt, rfl⟩

/-- Example row: a PROCESSING record awaiting deferred work. -/
def exRowProcessing : Transaction :=
  { transaction_id := "txn_1", source_account := "acc_user_789",
    destination_account := "acc_merchant_456", amount := 1500,
    currency := "INR", status := .PROCESSING, created_at := 2,
    processed_at := none }

/-- Example row: a record already in the terminal PROCESSED state. -/
def exRowDone : Transaction :=
  { transaction_id := "txn_q", source_account := "acc_a",
    destination_account := "acc_b", amount := 150, currency := "USD",
    status := .PROCESSED, created_at := 1, processed_at := some 31 }

/-- Example duplicate payload whose non-key fields all differ from
`exRowProcessing`. -/
def dupPayload : WebhookRequest :=
  { transaction_id := "txn_1", source_account := "other_src",
    destination_account := "other_dst", amount := 999, currency := "EUR" }

/-- Example valid payload. -/
def validPayload : WebhookRequest :=
  { transaction_id := "txn_abc123def456", source_account := "acc_user_789",
    destination_account := "acc_merchant_456", amount := 1500,
    currency := "INR" }

/-- Claim C5: a deferred-processing run that encounters no failure waits the
fixed delay, then sets the found record to PROCESSED with `processed_at`
the completion time, which is non-null and at least `created_at`; when the
record does not exist the run reports the not-found error and writes
nothing. -/
theorem C5_deferred_success (db : Store) (t0 : Nat) (id : String)
    (r : Transaction) (hfind : findTxn db id = some r)
    (hle : r.created_at ≤ t0) :
    process_transaction noFail db t0 id
        = (updateStatus db id .PROCESSED (t0 + TASK_DELAY), .ok)
      ∧ findTxn (process_transaction noFail db t0 id).1 id
        = some { r with status := .PROCESSED,
                        processed_at := some (t0 + TASK_DELAY) }
      ∧ r.created_at ≤ t0 + TASK_DELAY
      ∧ (∀ (db2 : Store) (t2 : Nat), findTxn db2 id = none →
          process_transaction noFail db2 t2 id = (db2, .notFoundError)) := by
  have h1 : process_transaction noFail db t0 id
      = (updateStatus db id .PROCESSED (t0 + TASK_DELAY), .ok) := by
    unfold process_transaction noFail
    simp [hfind]
  have hbeq : (r.transaction_id == id) = true := by
    have h2 := hfind
    unfold findTxn at h2
    have h3 := List.find?_some h2
    simpa using h3
  refine ⟨h1, ?_, Nat.le_trans hle (Nat.le_add_right _ _), ?_⟩
  · simp only [h1]
    rw [findTxn_updateStatus, hfind]
    simp [applyUpdate, hbeq]
  · intro db2 t2 h
    unfold process_transaction noFail
    simp [h]

/-- Witness for C5 at a concrete store. -/
theorem C5_deferred_success_witness :
    process_transaction noFail [exRowProcessing] 2 "txn_1"
        = (updateStatus [exRowProcessing] "txn_1" .PROCESSED (2 + TASK_DELAY),
           .ok)
      ∧ findTxn (process_transaction noFail [exRowProcessing] 2 "txn_1").1
          "txn_1"
        = some { exRowProcessing with
                   status := .PROCESSED,
                   processed_at := some (2 + TASK_DELAY) }
      ∧ exRowProcessing.created_at ≤ 2 + TASK_DELAY
      ∧ process_transaction noFail [] 0 "txn_1" = ([], .notFoundError) := by
  obtain ⟨h1, h2, h3, h4⟩ :=
    C5_deferred_success [exRowProcessing] 2 "txn_1" exRowProcessing
      (by decide) (by decide)
  exact ⟨h1, h2, h3, h4 [] 0 (by decide)⟩

/-- Claim C7: a creation attempt whose id already exists is answered with
the duplicate acknowledgment, without error, without mutating any field of
any stored row and without scheduling work, whatever the other payload
fields are. -/
theorem C7_duplicate_create (w : WebhookRequest) (s : IngestState) (now : Nat)
    (r : Transaction) (hex : findTxn s.db w.transaction_id = some r) :
    receive_webhook true now w s
      = (s, .accepted ("Webhook received (duplicate)") w.transaction_id) := by
  unfold receive_webhook
  simp [hex]

/-- Witness for C7: the duplicate payload differs from the stored row in
every non-key field, and the state is returned untouched. -/
theorem C7_duplicate_create_witness :
    receive_webhook true 9 dupPayload ⟨[exRowProcessing], ["txn_1"]⟩
      = (⟨[exRowProcessing], ["txn_1"]⟩,
         .accepted ("Webhook received (duplicate)") dupPayload.transaction_id) :=
  C7_duplicate_create dupPayload ⟨[exRowProcessing], ["txn_1"]⟩ 9
    exRowProcessing (by decide)

/-- Claim C8: with the store unavailable at ingestion the handler answers
the server error and neither creates a record nor schedules a job. -/
theorem C8_store_unavailable (w : WebhookRequest) (s : IngestState) (now : Nat)
    (hvalid : validWebhookRequest w = true) :
    postWebhook false now w s
      = (s, .serverError 500 ("Failed to process webhook")) := by
  unfold postWebhook receive_webhook
  simp [hvalid]

/-- Witness for C8 on the empty state. -/
theorem C8_store_unavailable_witness :
    postWebhook false 0 validPayload ⟨[], []⟩
      = (⟨[], []⟩, .serverError 500 ("Failed to process webhook")) :=
  C8_store_unavailable validPayload ⟨[], []⟩ 0 (by decide)

/-- Claim C10: for an id present in the store the GET endpoint returns the
one-element list wrapping the full record, never a bare object and never a
list of another length. -/
theorem C10_get_singleton (db : Store) (id : String) (r : Transaction)
    (hfind : findTxn db id = some r) :
    get_transaction db id = .found [toResponse r]
      ∧ [toResponse r].length = 1
      ∧ toResponse r
        = { transaction_id := r.transaction_id,
            source_account := r.source_account,
            destination_account := r.destination_account,
            amount := r.amount, currency := r.currency, status := r.status,
            created_at := r.created_at, processed_at := r.processed_at } := by
  refine ⟨?_, rfl, rfl⟩
  unfold get_transaction
  simp [hfind]

/-- Witness for C10 at a concrete one-row store. -/
theorem C10_get_singleton_witness :
    get_transaction [exRowDone] "txn_q" = .found [toResponse exRowDone]
      ∧ [toResponse exRowDone].length = 1 := by
  obtain ⟨h1, h2, h3⟩ :=
    C10_get_singleton [exRowDone] "txn_q" exRowDone (by decide)
  exact ⟨h1, h2⟩

/-- Claim C2: submitting the same valid payload twice through the POST
endpoint stores exactly one record, answers two accepted responses of the
same shape and status code with the second carrying the duplicate message,
and schedules exactly one deferred job. -/
theorem C2_double_submit (w : WebhookRequest) (s : IngestState)
    (now1 now2 : Nat) (hvalid : validWebhookRequest w = true)
    (hnew : findTxn s.db w.transaction_id = none) :
    (postWebhook true now1 w s).2
        = .accepted ("Webhook received") w.transaction_id
      ∧ (postWebhook true now2 w (postWebhook true now1 w s).1).2
        = .accepted ("Webhook received (duplicate)") w.transaction_id
      ∧ statusCode (postWebhook true now1 w s).2 = 202
      ∧ statusCode (postWebhook true now2 w (postWebhook true now1 w s).1).2
        = 202
      ∧ countTxn ((postWebhook true now2 w (postWebhook true now1 w s).1).1).db
          w.transaction_id = 1
      ∧ ((postWebhook true now2 w (postWebhook true now1 w s).1).1).scheduledJobs
        = s.scheduledJobs ++ [w.transaction_id] := by
  have h1 : postWebhook true now1 w s
      = ({ db := s.db ++ [mkTransaction w now1],
           scheduledJobs := s.scheduledJobs ++ [w.transaction_id] },
         .accepted ("Webhook received") w.transaction_id) := by
    unfold postWebhook receive_webhook
    simp [hvalid, hnew]
  have hfind2 : findTxn (s.db ++ [mkTransaction w now1]) w.transaction_id
      = some (mkTransaction w now1) := by
    unfold findTxn at hnew ⊢
    rw [List.find?_append, hnew]
    simp [mkTransaction]
  have h2 : postWebhook true now2 w (postWebhook true now1 w s).1
      = ((postWebhook true now1 w s).1,
         .accepted ("Webhook received (duplicate)") w.transaction_id) := by
    rw [h1]
    unfold postWebhook receive_webhook
    simp [hvalid, hfind2]
  have hnodup : ∀ x ∈ s.db, ¬(x.transaction_id == w.transaction_id) = true := by
    have h := hnew
    unfold findTxn at h
    exact List.find?_eq_none.mp h
  have hcnt : countTxn (s.db ++ [mkTransaction w now1]) w.transaction_id = 1 := by
    unfold countTxn
    rw [List.filter_append, List.filter_eq_nil_iff.mpr hnodup]
    simp [mkTransaction]
  refine ⟨?_, ?_, ?_, ?_, ?_, ?_⟩
  · rw [h1]
  · rw [h2]
  · rw [h1]; rfl
  · rw [h2]; rfl
  · rw [h2, h1]; exact hcnt
  · rw [h2, h1]

/-- Witness for C2: the scenario of §8 of the spec, submitted twice. -/
theorem C2_double_submit_witness :
    (postWebhook true 3 validPayload ⟨[], []⟩).2
        = .accepted ("Webhook received") validPayload.transaction_id
      ∧ (postWebhook true 4 validPayload
            (postWebhook true 3 validPayload ⟨[], []⟩).1).2
        = .accepted ("Webhook received (duplicate)") validPayload.transaction_id
      ∧ countTxn ((postWebhook true 4 validPayload
            (postWebhook true 3 validPayload ⟨[], []⟩).1).1).db
          validPayload.transaction_id = 1
      ∧ ((postWebhook true 4 validPayload
            (postWebhook true 3 validPayload ⟨[], []⟩).1).1).scheduledJobs
        = [validPayload.transaction_id] := by
  obtain ⟨h1, h2, h3, h4, h5, h6⟩ :=
    C2_double_submit validPayload ⟨[], []⟩ 3 4 (by decide) (by decide)
  exact ⟨h1, h2, h5, h6⟩

/-- Claim C4: every table-writing operation of the system (creation at
ingestion, the PROCESSED transition, the FAILED fallback transition, and
the thread-fallback transition) preserves the invariant that
`processed_at` is non-null exactly when the status is terminal. -/
theorem C4_invariant_preserved (op : SysOp) (s : IngestState)
    (hinv : storeInvariant s.db = true) :
    storeInvariant ((applyOp op s).db) = true := by
  cases op with
  | ingest avail now w =>
      rcases postWebhook_db_cases avail now w s with h | h
      · simp only [applyOp, h]; exact hinv
      · simp only [applyOp, h]
        simp only [storeInvariant, List.all_eq_true] at hinv ⊢
        intro x hx
        rcases List.mem_append.mp hx with hx | hx
        · exact hinv x hx
        · rcases List.mem_singleton.mp hx with rfl
          exact rowInvariant_mkTransaction w now
  | deferred fs t id =>
      rcases process_transaction_fst fs s.db t id with h | h | h
      · simp only [applyOp, h]; exact hinv
      · simp only [applyOp, h]
        exact storeInvariant_updateStatus s.db id .PROCESSED (t + TASK_DELAY)
          (by simp) hinv
      · simp only [applyOp, h]
        exact storeInvariant_updateStatus s.db id .FAILED (t + TASK_DELAY)
          (by simp) hinv
  | deferredThread f t id =>
      rcases processTransactionInThread_cases f s.db t id with h | h
      · simp only [applyOp, h]; exact hinv
      · simp only [applyOp, h]
        exact storeInvariant_updateStatus s.db id .PROCESSED (t + TASK_DELAY)
          (by simp) hinv

/-- Witness for C4: creating a record, then processing it, keeps the
invariant through both writes. -/
theorem C4_invariant_preserved_witness :
    storeInvariant ((applyOp (SysOp.ingest true 0 validPayload) ⟨[], []⟩).db)
        = true
      ∧ storeInvariant ((applyOp (SysOp.deferred noFail 1 "txn_abc123def456")
          (applyOp (SysOp.ingest true 0 validPayload) ⟨[], []⟩)).db) = true := by
  have h1 := C4_invariant_preserved (SysOp.ingest true 0 validPayload)
    ⟨[], []⟩ (by decide)
  have h2 := C4_invariant_preserved
    (SysOp.deferred noFail 1 "txn_abc123def456")
    (applyOp (SysOp.ingest true 0 validPayload) ⟨[], []⟩) h1
  exact ⟨h1, h2⟩

/-- Payload with an empty source account but positive amount and 3-letter
currency: the pydantic schema accepts it. -/
def emptySourcePayload : WebhookRequest :=
  { transaction_id := "txn_empty_src", source_account := "",
    destination_account := "acc_b", amount := 100, currency := "USD" }

/-- Counterexample to claim C9: a payload whose source account is the empty
string is not rejected — the endpoint accepts it, creates a record and
schedules a deferred job, because the schema constrains only `amount` and
`currency`. -/
theorem C9_counterexample :
    emptySourcePayload.source_account = ""
      ∧ postWebhook true 7 emptySourcePayload ⟨[], []⟩
        = (⟨[mkTransaction emptySourcePayload 7], ["txn_empty_src"]⟩,
           .accepted ("Webhook received") ("txn_empty_src"))
      ∧ countTxn ((postWebhook true 7 emptySourcePayload ⟨[], []⟩).1).db
          "txn_empty_src" = 1 := by
  refine ⟨rfl, ?_, ?_⟩ <;> decide

/-- Claim C9 as amended: payloads violating the constraints the schema
actually enforces — amount not strictly positive or currency not exactly 3
characters — are rejected as a client error before reaching the core, with
no record created and no job scheduled; empty account strings are not
among the enforced constraints. -/
theorem C9_amended_validation (avail : Bool) (now : Nat) (w : WebhookRequest)
    (s : IngestState) (h : ¬(0 < w.amount ∧ w.currency.length = 3)) :
    postWebhook avail now w s = (s, .clientError 422) := by
  have hv : validWebhookRequest w = false := by
    rcases not_and_or.mp h with h1 | h1 <;>
      simp [validWebhookRequest, h1]
  unfold postWebhook
  simp [hv]

/-- Witness for the amended C9: the negative-amount scenario of §8. -/
theorem C9_amended_validation_witness :
    postWebhook true 0
        { transaction_id := "txn_neg", source_account := "acc_a",
          destination_account := "acc_b", amount := -5, currency := "USD" }
        ⟨[], []⟩
      = (⟨[], []⟩, .clientError 422) :=
  C9_amended_validation true 0
    { transaction_id := "txn_neg", source_account := "acc_a",
      destination_account := "acc_b", amount := -5, currency := "USD" }
    ⟨[], []⟩ (by decide)

/-- Example row: a record already in the terminal FAILED state. -/
def exRowFailed : Transaction :=
  { transaction_id := "txn_f", source_account := "acc_a",
    destination_account := "acc_b", amount := 10, currency := "USD",
    status := .FAILED, created_at := 0, processed_at := some 3 }

/-- Counterexample to claim C1: re-invoking deferred processing on a
terminal FAILED record is not ignored — the run completes as a success and
rewrites the record: status flips from FAILED to PROCESSED and
`processed_at` is overwritten with the new completion time. -/
theorem C1_counterexample :
    statusOf [exRowFailed] "txn_f" = some TransactionStatus.FAILED
      ∧ exRowFailed.processed_at = some 3
      ∧ (process_transaction noFail [exRowFailed] 40 "txn_f").2 = .ok
      ∧ statusOf (process_transaction noFail [exRowFailed] 40 "txn_f").1 "txn_f"
        = some TransactionStatus.PROCESSED
      ∧ (findTxn (process_transaction noFail [exRowFailed] 40 "txn_f").1
          "txn_f").map Transaction.processed_at = some (some 65) := by
  refine ⟨?_, rfl, ?_, ?_, ?_⟩ <;> decide

/-- Claim C1 as amended: re-invoking deferred processing for a terminal
record is reported as success, but it is not a no-op: the run
unconditionally re-applies the PROCESSED transition, so the status becomes
PROCESSED (changing FAILED records) and `processed_at` is overwritten with
the new completion time. -/
theorem C1_amended_reprocess_overwrites (db : Store) (t0 : Nat) (id : String)
    (r : Transaction) (hfind : findTxn db id = some r)
    (hterm : r.status = .PROCESSED ∨ r.status = .FAILED) :
    process_transaction noFail db t0 id
        = (updateStatus db id .PROCESSED (t0 + TASK_DELAY), .ok)
      ∧ findTxn (process_transaction noFail db t0 id).1 id
        = some { r with status := .PROCESSED,
                        processed_at := some (t0 + TASK_DELAY) } := by
  have h1 : process_transaction noFail db t0 id
      = (updateStatus db id .PROCESSED (t0 + TASK_DELAY), .ok) := by
    unfold process_transaction noFail
    simp [hfind]
  have hbeq : (r.transaction_id == id) = true := by
    have h2 := hfind
    unfold findTxn at h2
    have h3 := List.find?_some h2
    simpa using h3
  refine ⟨h1, ?_⟩
  simp only [h1]
  rw [findTxn_updateStatus, hfind]
  simp [applyUpdate, hbeq]

/-- Witness for the amended C1 at a terminal FAILED record. -/
theorem C1_amended_reprocess_overwrites_witness :
    process_transaction noFail [exRowFailed] 40 "txn_f"
        = (updateStatus [exRowFailed] "txn_f" .PROCESSED (40 + TASK_DELAY),
           .ok)
      ∧ findTxn (process_transaction noFail [exRowFailed] 40 "txn_f").1 "txn_f"
        = some { exRowFailed with
                   status := .PROCESSED,
                   processed_at := some (40 + TASK_DELAY) } :=
  C1_amended_reprocess_overwrites [exRowFailed] 40 "txn_f" exRowFailed
    (by decide) (Or.inr (by decide))

/-- Example row for the C3 counterexample: a FAILED record under a retried
deferred invocation. -/
def exRowFailed2 : Transaction :=
  { transaction_id := "txn_g", source_account := "acc_x",
    destination_account := "acc_y", amount := 7, currency := "EUR",
    status := .FAILED, created_at := 1, processed_at := some 9 }

/-- Counterexample to claim C3: a retried deferred-processing invocation
changes the status of a terminal record — a FAILED record becomes
PROCESSED, so terminal status is not preserved by every operation. -/
theorem C3_counterexample :
    statusOf [exRowFailed2] "txn_g" = some TransactionStatus.FAILED
      ∧ statusOf
          ((runOps [SysOp.deferred noFail 50 "txn_g"] ⟨[exRowFailed2], []⟩).db)
          "txn_g"
        = some TransactionStatus.PROCESSED := by
  constructor <;> decide

/-- Claim C3 as amended: under every sequence of system operations a stored
record never reverts to PROCESSING once it has left that state — but its
terminal status is not otherwise frozen, since a retried deferred run
rewrites FAILED to PROCESSED. -/
theorem C3_amended_no_revert (ops : List SysOp) (s : IngestState)
    (id : String) (st : TransactionStatus) (hst : statusOf s.db id = some st)
    (hterm : st = .PROCESSED ∨ st = .FAILED) :
    statusOf ((runOps ops s).db) id ≠ some TransactionStatus.PROCESSING := by
  have h1 : (statusOf s.db id).isSome = true := by rw [hst]; rfl
  have h2 : statusOf s.db id ≠ some .PROCESSING := by
    rw [hst]
    rcases hterm with h | h <;> rw [h] <;> simp
  clear hst hterm
  induction ops generalizing s with
  | nil => simpa [runOps] using h2
  | cons op rest ih =>
      have hstep := statusOf_step op s id h1 h2
      have hrun : runOps (op :: rest) s = runOps rest (applyOp op s) := rfl
      rw [hrun]
      exact ih (applyOp op s) hstep.1 hstep.2

/-- Witness for the amended C3: a PROCESSED record stays off PROCESSING
through an ingest, a failing deferred retry and a thread fallback. -/
theorem C3_amended_no_revert_witness :
    statusOf
        ((runOps
            [SysOp.ingest true 5 dupPayload,
             SysOp.deferred ⟨true, false⟩ 6 "txn_q",
             SysOp.deferredThread false 7 "txn_q"]
            ⟨[exRowDone], []⟩).db)
        "txn_q"
      ≠ some TransactionStatus.PROCESSING :=
  C3_amended_no_revert
    [SysOp.ingest true 5 dupPayload,
     SysOp.deferred ⟨true, false⟩ 6 "txn_q",
     SysOp.deferredThread false 7 "txn_q"]
    ⟨[exRowDone], []⟩ "txn_q" .PROCESSED (by decide) (Or.inl rfl)

/-- Claim C6: a failing deferred run best-effort transitions the record to
FAILED with `processed_at` set (or leaves the table untouched when even
that write fails), then signals the retryable failure with the fixed
countdown; the dispatch layer retries up to the bounded budget, after
which the job is abandoned with the table either untouched or carrying the
FAILED write. -/
theorem C6_failure_retry (fs : FailureScenario) (scen : Nat → FailureScenario)
    (db : Store) (id : String) (t0 t1 : Nat)
    (hfs : fs.mainFails = true)
    (hscen : ∀ k, (scen k).mainFails = true)
    (hmem : (findTxn db id).isSome = true) :
    process_transaction fs db t1 id
        = ((if fs.fallbackFails then db
            else updateStatus db id .FAILED (t1 + TASK_DELAY)),
           .retrySignal RETRY_COUNTDOWN)
      ∧ (dispatchLoop scen id MAX_RETRIES 0 t0 db).abandoned = true
      ∧ (dispatchLoop scen id MAX_RETRIES 0 t0 db).runs = MAX_RETRIES + 1
      ∧ ((dispatchLoop scen id MAX_RETRIES 0 t0 db).db = db
          ∨ ∃ tt, (dispatchLoop scen id MAX_RETRIES 0 t0 db).db
              = updateStatus db id .FAILED tt) := by
  obtain ⟨r, hr⟩ : ∃ r, findTxn db id = some r := by
    cases hfr : findTxn db id with
    | some r => exact ⟨r, rfl⟩
    | none => rw [hfr] at hmem; simp at hmem
  have hone : process_transaction fs db t1 id
      = ((if fs.fallbackFails then db
          else updateStatus db id .FAILED (t1 + TASK_DELAY)),
         .retrySignal RETRY_COUNTDOWN) := by
    unfold process_transaction
    rw [hfs]
    cases fs.fallbackFails <;> simp [hr]
  obtain ⟨ha, hruns, hdb⟩ := dispatchLoop_allFail scen id hscen MAX_RETRIES 0 t0 db
  exact ⟨hone, ha, by omega, hdb⟩

/-- Witness for C6: a run whose body and fallback both fail still signals
the fixed-countdown retry, and an always-failing job is abandoned after
exactly the retry budget with one run per attempt. -/
theorem C6_failure_retry_witness :
    process_transaction ⟨true, true⟩ [exRowProcessing] 11 "txn_1"
        = ([exRowProcessing], .retrySignal RETRY_COUNTDOWN)
      ∧ (dispatchLoop (fun _ => ⟨true, true⟩) "txn_1" MAX_RETRIES 0 0
          [exRowProcessing]).abandoned = true
      ∧ (dispatchLoop (fun _ => ⟨true, true⟩) "txn_1" MAX_RETRIES 0 0
          [exRowProcessing]).runs = MAX_RETRIES + 1 := by
  obtain ⟨h1, h2, h3, h4⟩ :=
    C6_failure_retry ⟨true, true⟩ (fun _ => ⟨true, true⟩) [exRowProcessing]
      "txn_1" 0 11 rfl (fun _ => rfl) (by decide)
  exact ⟨by simpa using h1, h2, h3⟩

end Backend
